import Mathlib

/-!
Shallow embedding of the mood-reflect-flow Flask backend
(src/flask_backend/app.py) and proofs about its handlers.

Modelling conventions:
* Python dicts that map emotion labels to scores become association lists
  `List (String × ℚ)` in insertion order; Python floats become `ℚ`.
* The external collaborators (the FER classifier, base64/PIL decoding, the
  Gemini model, `json.loads`) are passed in as function parameters: the code
  under verification only composes their results.
* A handler takes the request data and the database state and returns the
  HTTP-level result together with the new database state; SQLite inserts
  append to the end of the corresponding table list, and the
  `CURRENT_TIMESTAMP` default is supplied as a `now` parameter.
-/

/-- One face as returned by `emotion_detector.detect_emotions`: its
per-emotion score mapping (the `emotions` dict, in insertion order). -/
structure Face where
  emotions : List (String × ℚ)
  deriving Repr, DecidableEq

/-- One step of Python `max(iterable, key=f)`: the running best is replaced
only when the candidate scores strictly higher, so the first maximum wins. -/
def maxStep (best q : String × ℚ) : String × ℚ :=
  if best.2 < q.2 then q else best

/-- Python `max(emotion_data, key=emotion_data.get)` over a non-empty
association list: fold `maxStep` from the first entry. Returns `none` on the
empty list (where Python `max` raises `ValueError`). -/
def maxByVal : List (String × ℚ) → Option (String × ℚ)
  | [] => none
  | p :: ps => some (ps.foldl maxStep p)

/-- `detect_emotion` (app.py lines 105-124): takes the classifier output for
the image, uses the first face, and picks the emotion with the highest score.
Returns `(none, 0)` when no face is found, and also when the first face has an
empty score mapping (there Python `max` raises and the handler catches). -/
def detect_emotion (emotions : List Face) : Option String × ℚ :=
  match emotions with
  | [] => (none, 0)
  | face :: _ =>
    match maxByVal face.emotions with
    | none => (none, 0)
    | some (d, c) => (some d, c)


/-- Outcome of one call to the external Gemini model
(`model.generate_content`): either generated text, or a raised exception. -/
inductive GenResult where
  | ok (text : String)
  | err
  deriving Repr, DecidableEq

/-- A suggestion dict with keys message/tip/activity/sound. `activity` and
`sound` are optional because the handler reads them with `.get(..., '')`. -/
structure Suggestion where
  message : String
  tip : String
  activity : Option String
  sound : Option String
  deriving Repr, DecidableEq

/-- The dict returned by the inner `except` of `get_therapeutic_suggestion`
(app.py lines 155-160) when the Gemini reply is not parseable as JSON. -/
def json_fallback_suggestion : Suggestion :=
  { message := "You're doing great by acknowledging your feelings. Every emotion is valid and temporary."
    tip := "Take slow, deep breaths and remind yourself that this feeling will pass."
    activity := some "Try a short mindfulness exercise or gentle movement."
    sound := some "calming nature sounds" }

/-- The `fallback_suggestions` dict of `get_therapeutic_suggestion`
(app.py lines 166-209), as an association list in insertion order. -/
def fallback_suggestions : List (String × Suggestion) :=
  [("happy",
    { message := "Your positive energy is wonderful! Embrace this joyful moment and let it fill you with warmth."
      tip := "Share your happiness with others - positive emotions are contagious in the best way."
      activity := some "Try dancing to your favorite song or call someone you care about."
      sound := some "uplifting nature sounds" }),
   ("sad",
    { message := "It's completely okay to feel this way. Your emotions are valid, and you're not alone in this."
      tip := "Allow yourself to feel without judgment. Sadness is a natural part of the human experience."
      activity := some "Try gentle stretching, journaling, or listening to comforting music."
      sound := some "gentle rain" }),
   ("angry",
    { message := "Your feelings are valid. Let's channel this energy in a healthy, constructive way."
      tip := "Physical movement can help release tension. Take deep breaths and count to ten."
      activity := some "Try a brief walk outside, some deep breathing, or write down your thoughts."
      sound := some "flowing stream" }),
   ("fear",
    { message := "You're braver than you feel right now. Fear is temporary, but your strength is lasting."
      tip := "Ground yourself by focusing on what you can control in this moment."
      activity := some "Practice the 5-4-3-2-1 grounding technique: 5 things you see, 4 you hear, 3 you feel, 2 you smell, 1 you taste."
      sound := some "peaceful forest" }),
   ("surprise",
    { message := "Life is full of unexpected moments. You're handling this surprise with grace."
      tip := "Take a moment to process this new information. Surprises can lead to growth."
      activity := some "Take a few mindful breaths and reflect on how you're feeling right now."
      sound := some "gentle wind chimes" }),
   ("disgust",
    { message := "Your boundaries and values are important. It's okay to feel this way about things that don't align with you."
      tip := "Distance yourself from what's bothering you if possible, and focus on what brings you peace."
      activity := some "Engage in something that brings you joy or comfort - perhaps a hobby or time in nature."
      sound := some "mountain breeze" }),
   ("neutral",
    { message := "A balanced state is a gift. You're centered and ready for whatever comes your way."
      tip := "This is a perfect time for planning, reflection, or trying something new."
      activity := some "Consider setting a small, achievable goal for today or practicing gratitude."
      sound := some "ambient peace" })]

/-- The value of `fallback_suggestions['neutral']`. -/
def neutral_suggestion : Suggestion :=
  { message := "A balanced state is a gift. You're centered and ready for whatever comes your way."
    tip := "This is a perfect time for planning, reflection, or trying something new."
    activity := some "Consider setting a small, achievable goal for today or practicing gratitude."
    sound := some "ambient peace" }

/-- `fallback_suggestions.get(emotion, fallback_suggestions['neutral'])`
(app.py line 211). -/
def fallback_lookup (emotion : String) : Suggestion :=
  (fallback_suggestions.lookup emotion).getD neutral_suggestion

/-- `get_therapeutic_suggestion` (app.py lines 126-211). The Gemini client is
`model` (`none` when `GEMINI_API_KEY` is unset); since the hand-written
prompt is a fixed function of the emotion, the external call is modelled as a
function of the emotion. `parseJson` models `json.loads` succeeding with a
suggestion-shaped value, `none` standing for a parse error. -/
def get_therapeutic_suggestion (model : Option (String → GenResult))
    (parseJson : String → Option Suggestion)
    (emotion : String) (use_gemini : Bool) : Suggestion :=
  let viaGemini : Option Suggestion :=
    if use_gemini then
      match model with
      | some generate =>
        match generate emotion with
        | GenResult.ok text =>
          match parseJson text with
          | some s => some s
          | none => some json_fallback_suggestion
        | GenResult.err => none
      | none => none
    else none
  match viaGemini with
  | some s => s
  | none => fallback_lookup emotion

/-- Drop leading whitespace characters from a character list. -/
def stripLeading : List Char → List Char
  | [] => []
  | c :: cs => if c.isWhitespace then stripLeading cs else c :: cs

/-- Python `str.strip()`: remove leading and trailing whitespace. -/
def pyStrip (s : String) : String :=
  ⟨(stripLeading (stripLeading s.data.reverse).reverse)⟩

/-- A prior chat turn as supplied by the caller in `chat_history` (a dict
read with `.get('sender')` and `.get('text', '')`). -/
structure HistMsg where
  sender : Option String
  text : Option String
  deriving Repr, DecidableEq

/-- `get_chat_response` (app.py lines 213-257). The prompt is a fixed
function of the message, the mood and the last five history entries, so the
external Gemini call is modelled as a function of those three. -/
def get_chat_response
    (model : Option (String → Option String → List HistMsg → GenResult))
    (message : String) (mood : Option String) (chat_history : List HistMsg) :
    String :=
  match model with
  | none =>
    "I'm here to listen and support you. Sometimes it helps just to know someone cares about you."
  | some generate =>
    match generate message mood (chat_history.drop (chat_history.length - 5)) with
    | GenResult.ok text => pyStrip text
    | GenResult.err =>
      "I'm here for you. Your feelings are valid, and it's okay to take things one step at a time."

/-- A row of the `mood_history` table (schema at app.py lines 40-48).
`timestamp` models the `CURRENT_TIMESTAMP` default. -/
structure MoodRow where
  emotion : String
  confidence : ℚ
  timestamp : Nat
  session_id : String
  deriving Repr, DecidableEq

/-- A row of the `chat_history` table (schema at app.py lines 50-59). -/
structure ChatRow where
  message : String
  sender : String
  mood : Option String
  timestamp : Nat
  session_id : String
  deriving Repr, DecidableEq

/-- A row of the `suggestions` table (schema at app.py lines 61-71). -/
structure SuggestionRow where
  emotion : String
  message : String
  tip : String
  activity : String
  sound : String
  timestamp : Nat
  deriving Repr, DecidableEq

/-- The three tables of `neuromirror.db`, each as a list in insertion order
(SQLite INSERT appends a fresh autoincremented row at the end). -/
structure DB where
  mood_history : List MoodRow
  chat_history : List ChatRow
  suggestions : List SuggestionRow
  deriving Repr, DecidableEq

/-- Round half to even, as Python `round` resolves ties. -/
def roundHalfEven (q : ℚ) : ℤ :=
  let f := ⌊q⌋
  let r := q - (f : ℚ)
  if r < 1 / 2 then f
  else if 1 / 2 < r then f + 1
  else if 2 ∣ f then f else f + 1

/-- Python `round(confidence, 2)` (app.py line 305): round to two decimal
places, ties to even. -/
def pyRound2 (q : ℚ) : ℚ := (roundHalfEven (q * 100) : ℚ) / 100

/-- The JSON body of a `/detect` request: `request.get_json()` read with
`data['image']` and `data.get('session_id', 'default')`. -/
structure DetectBody where
  image : Option String
  session_id : Option String
  deriving Repr, DecidableEq

/-- The success payload of `/detect` (app.py lines 303-310). -/
structure DetectResp where
  emotion : String
  confidence : ℚ
  message : String
  tip : String
  activity : String
  sound : String
  deriving Repr, DecidableEq

/-- A handler outcome: HTTP 400 with an error field, or HTTP 200 with the
success payload. -/
inductive HttpResult (α : Type) where
  | badRequest (error : String)
  | ok (payload : α)
  deriving Repr, DecidableEq

/-- `detect_mood`, the `/detect` handler (app.py lines 259-314).
`decode` models `decode_base64_image` (returning `none` where the original
logs and returns `None`), `classify` the external
`emotion_detector.detect_emotions`, `model`/`parseJson` the Gemini pieces as
in `get_therapeutic_suggestion`, `now` the `CURRENT_TIMESTAMP` default of the
inserted rows, and `data` is `request.get_json()` (`none` for an absent
body). Returns the HTTP outcome and the database after the call. -/
def detect_mood {Img : Type} (decode : String → Option Img)
    (classify : Img → List Face) (model : Option (String → GenResult))
    (parseJson : String → Option Suggestion) (now : Nat)
    (data : Option DetectBody) (db : DB) : HttpResult DetectResp × DB :=
  match data with
  | none => (HttpResult.badRequest "No image provided", db)
  | some d =>
    match d.image with
    | none => (HttpResult.badRequest "No image provided", db)
    | some imageStr =>
      match decode imageStr with
      | none => (HttpResult.badRequest "Invalid image format", db)
      | some image =>
        match detect_emotion (classify image) with
        | (none, _) => (HttpResult.badRequest "No face detected", db)
        | (some emotion, confidence) =>
          let db1 : DB :=
            { db with mood_history := db.mood_history ++
                [{ emotion := emotion, confidence := confidence,
                   timestamp := now,
                   session_id := d.session_id.getD "default" }] }
          let suggestion := get_therapeutic_suggestion model parseJson emotion true
          let db2 : DB :=
            { db1 with suggestions := db1.suggestions ++
                [{ emotion := emotion, message := suggestion.message,
                   tip := suggestion.tip,
                   activity := suggestion.activity.getD "",
                   sound := suggestion.sound.getD "",
                   timestamp := now }] }
          (HttpResult.ok
            { emotion := emotion, confidence := pyRound2 confidence,
              message := suggestion.message, tip := suggestion.tip,
              activity := suggestion.activity.getD "",
              sound := suggestion.sound.getD "" }, db2)

/-- The JSON body of a `/chat` request. -/
structure ChatBody where
  message : Option String
  mood : Option String
  chat_history : Option (List HistMsg)
  session_id : Option String
  deriving Repr, DecidableEq

/-- The success payload of `/chat` (app.py lines 350-353): the response text
and `datetime.now().isoformat()`. -/
structure ChatResp where
  response : String
  timestamp : String
  deriving Repr, DecidableEq

/-- `chat`, the `/chat` handler (app.py lines 316-357). `now` is the
`CURRENT_TIMESTAMP` default of the two inserted rows and `nowIso` the
`datetime.now().isoformat()` string of the response. -/
def chat (model : Option (String → Option String → List HistMsg → GenResult))
    (now : Nat) (nowIso : String) (data : Option ChatBody) (db : DB) :
    HttpResult ChatResp × DB :=
  match data with
  | none => (HttpResult.badRequest "No message provided", db)
  | some d =>
    match d.message with
    | none => (HttpResult.badRequest "No message provided", db)
    | some user_message =>
      let mood := d.mood
      let hist := d.chat_history.getD []
      let session_id := d.session_id.getD "default"
      let db1 : DB :=
        { db with chat_history := db.chat_history ++
            [{ message := user_message, sender := "user", mood := mood,
               timestamp := now, session_id := session_id }] }
      let ai_response := get_chat_response model user_message mood hist
      let db2 : DB :=
        { db1 with chat_history := db1.chat_history ++
            [{ message := ai_response, sender := "therapist", mood := mood,
               timestamp := now, session_id := session_id }] }
      (HttpResult.ok { response := ai_response, timestamp := nowIso }, db2)

/-- SQLite `LIMIT ?`: a nonnegative limit caps the number of returned rows,
a negative limit means no upper bound. -/
def sqlLimit {α : Type} (lim : Int) (rows : List α) : List α :=
  if lim < 0 then rows else rows.take lim.toNat

/-- One entry of the `/mood-history` response (app.py lines 373-379). -/
structure MoodEntry where
  emotion : String
  confidence : ℚ
  timestamp : Nat
  deriving Repr, DecidableEq

/-- One entry of the `/chat-history` response (app.py lines 402-409). -/
structure ChatEntry where
  message : String
  sender : String
  mood : Option String
  timestamp : Nat
  deriving Repr, DecidableEq

/-- `get_mood_history`, the `/mood-history` handler (app.py lines 359-386):
rows with the given session id, ordered by timestamp descending, limited.
`session_id`/`lim` are the query args (`none` when absent, the limit also
when not parseable as an int, where Flask substitutes the default 50). -/
def get_mood_history (db : DB) (session_id : Option String)
    (lim : Option Int) : List MoodEntry :=
  let sid := session_id.getD "default"
  let n := lim.getD 50
  let rows := (db.mood_history.filter (fun r => r.session_id == sid)).insertionSort
    (fun a b => b.timestamp ≤ a.timestamp)
  (sqlLimit n rows).map (fun r =>
    { emotion := r.emotion, confidence := r.confidence,
      timestamp := r.timestamp })

/-- `get_chat_history`, the `/chat-history` handler (app.py lines 388-416):
rows with the given session id, ordered by timestamp ascending, limited
(default limit 100). -/
def get_chat_history (db : DB) (session_id : Option String)
    (lim : Option Int) : List ChatEntry :=
  let sid := session_id.getD "default"
  let n := lim.getD 100
  let rows := (db.chat_history.filter (fun r => r.session_id == sid)).insertionSort
    (fun a b => a.timestamp ≤ b.timestamp)
  (sqlLimit n rows).map (fun r =>
    { message := r.message, sender := r.sender, mood := r.mood,
      timestamp := r.timestamp })

/-- An empty database, as `init_db` leaves a fresh `neuromirror.db`. -/
def emptyDB : DB := { mood_history := [], chat_history := [], suggestions := [] }

/-- A Gemini stub whose call always raises. -/
def errGen : String → GenResult := fun _ => GenResult.err

/-- A `json.loads` stub that never parses. -/
def noParse : String → Option Suggestion := fun _ => none

/-- A classifier face scoring `sad` at 1. -/
def sadFace : Face := { emotions := [("sad", 1)] }

/-- A `/chat` body carrying only a message. -/
def helloBody : ChatBody :=
  { message := some "hello", mood := none, chat_history := none,
    session_id := none }

/-- A database holding a single default-session mood row. -/
def oneMoodDB : DB :=
  { mood_history :=
      [{ emotion := "happy", confidence := 1/2, timestamp := 10,
         session_id := "default" }],
    chat_history := [], suggestions := [] }


theorem foldl_maxStep_mem (ps : List (String × ℚ)) (b : String × ℚ) :
    ps.foldl maxStep b = b ∨ ps.foldl maxStep b ∈ ps := by
  induction ps generalizing b with
  | nil => exact Or.inl rfl
  | cons p ps ih =>
    have hstep : maxStep b p = b ∨ maxStep b p = p := by
      unfold maxStep; split
      · exact Or.inr rfl
      · exact Or.inl rfl
    simp only [List.foldl_cons]
    rcases ih (maxStep b p) with h | h
    · rcases hstep with hs | hs
      · exact Or.inl (h.trans hs)
      · exact Or.inr (by rw [h, hs]; exact List.mem_cons_self _ _)
    · exact Or.inr (List.mem_cons_of_mem _ h)

theorem foldl_maxStep_ge (ps : List (String × ℚ)) (b : String × ℚ) :
    b.2 ≤ (ps.foldl maxStep b).2 ∧ ∀ p ∈ ps, p.2 ≤ (ps.foldl maxStep b).2 := by
  induction ps generalizing b with
  | nil => exact ⟨le_refl _, by simp⟩
  | cons p ps ih =>
    obtain ⟨h1, h2⟩ := ih (maxStep b p)
    have hb : b.2 ≤ (maxStep b p).2 := by
      unfold maxStep; split
      · exact le_of_lt (by assumption)
      · exact le_refl _
    have hp : p.2 ≤ (maxStep b p).2 := by
      unfold maxStep; split
      · exact le_refl _
      · exact le_of_not_lt (by assumption)
    simp only [List.foldl_cons]
    refine ⟨le_trans hb h1, ?_⟩
    intro q hq
    rcases List.mem_cons.mp hq with h | h
    · subst h; exact le_trans hp h1
    · exact h2 q h

theorem detect_emotion_cons_spec (f : Face) (rest : List Face)
    (hne : f.emotions ≠ []) :
    ∃ d c, detect_emotion (f :: rest) = (some d, c) ∧ (d, c) ∈ f.emotions ∧
      ∀ p ∈ f.emotions, p.2 ≤ c := by
  obtain ⟨p, ps, hps⟩ := List.exists_cons_of_ne_nil hne
  rcases hfold : ps.foldl maxStep p with ⟨d, c⟩
  have hmem := foldl_maxStep_mem ps p
  have hge := foldl_maxStep_ge ps p
  rw [hfold] at hmem hge
  refine ⟨d, c, ?_, ?_, ?_⟩
  · simp [detect_emotion, maxByVal, hps, hfold]
  · rw [hps]
    rcases hmem with h | h
    · rw [h]; exact List.mem_cons_self _ _
    · exact List.mem_cons_of_mem _ h
  · intro q hq
    rw [hps] at hq
    rcases List.mem_cons.mp hq with h | h
    · subst h; exact hge.1
    · exact hge.2 q h

/-- C1: for a detected face whose per-emotion score mapping is non-empty, the
detection operation returns a label/score pair from that mapping whose score
is maximal among all scores of the mapping: the dominant emotion is the label
with the highest score, and the returned confidence is that label's score. -/
theorem C1_detect_emotion_returns_dominant (f : Face) (rest : List Face)
    (hne : f.emotions ≠ []) :
    ∃ d c, detect_emotion (f :: rest) = (some d, c) ∧ (d, c) ∈ f.emotions ∧
      ∀ p ∈ f.emotions, p.2 ≤ c :=
  detect_emotion_cons_spec f rest hne

theorem C1_witness :
    ∃ d c,
      detect_emotion [{ emotions := [("happy", 3/10), ("sad", 6/10), ("neutral", 1/10)] }] =
        (some d, c) ∧
      (d, c) ∈ [("happy", (3:ℚ)/10), ("sad", 6/10), ("neutral", 1/10)] ∧
      ∀ p ∈ [("happy", (3:ℚ)/10), ("sad", 6/10), ("neutral", 1/10)], p.2 ≤ c :=
  C1_detect_emotion_returns_dominant
    { emotions := [("happy", 3/10), ("sad", 6/10), ("neutral", 1/10)] } []
    (by simp)

/-- C10: when the classifier reports two or more faces, only the first face's
score mapping determines the result of the detection operation: the remaining
faces are ignored, so replacing them changes nothing. -/
theorem C10_only_first_face_matters (f : Face) (rest rest' : List Face) :
    detect_emotion (f :: rest) = detect_emotion (f :: rest') := rfl

/-- C4: the fallback lookup returns the `neutral` entry for every label that
is not one of the seven keys of the table, and returns the label's own entry
for each of the seven known keys. -/
theorem C4_fallback_lookup_total (e : String) :
    (e ∉ ["happy", "sad", "angry", "fear", "surprise", "disgust", "neutral"] →
      fallback_lookup e = neutral_suggestion) ∧
    ∀ s, (e, s) ∈ fallback_suggestions → fallback_lookup e = s := by
  constructor
  · intro h
    simp only [List.mem_cons, List.not_mem_nil, or_false, not_or] at h
    obtain ⟨h1, h2, h3, h4, h5, h6, h7⟩ := h
    have b1 := beq_eq_false_iff_ne.mpr h1
    have b2 := beq_eq_false_iff_ne.mpr h2
    have b3 := beq_eq_false_iff_ne.mpr h3
    have b4 := beq_eq_false_iff_ne.mpr h4
    have b5 := beq_eq_false_iff_ne.mpr h5
    have b6 := beq_eq_false_iff_ne.mpr h6
    have b7 := beq_eq_false_iff_ne.mpr h7
    simp [fallback_lookup, fallback_suggestions, List.lookup, b1, b2, b3, b4,
      b5, b6, b7]
  · intro s hs
    fin_cases hs <;> decide

theorem C4_witness :
    fallback_lookup "boredom" = neutral_suggestion ∧
    fallback_lookup "neutral" = neutral_suggestion :=
  ⟨(C4_fallback_lookup_total "boredom").1 (by decide),
   (C4_fallback_lookup_total "neutral").2 neutral_suggestion (by decide)⟩

/-- C2: under the classifier contract that every reported face carries a
non-empty score mapping, the `/detect` handler answers HTTP 400 with an error
field exactly when the JSON body is absent, or it lacks the `image` key, or
the image fails to decode, or the classifier finds no face; a 400 and a
success payload are mutually exclusive outcomes of `HttpResult`. -/
theorem C2_detect_error_iff {Img : Type} (decode : String → Option Img)
    (classify : Img → List Face) (model : Option (String → GenResult))
    (parseJson : String → Option Suggestion) (now : Nat)
    (data : Option DetectBody) (db : DB)
    (hfaces : ∀ (img : Img), ∀ f ∈ classify img, f.emotions ≠ []) :
    (∃ e, (detect_mood decode classify model parseJson now data db).1 =
        HttpResult.badRequest e) ↔
      (data = none ∨ ∃ d, data = some d ∧
        (d.image = none ∨ ∃ s, d.image = some s ∧
          (decode s = none ∨ ∃ img, decode s = some img ∧
            classify img = []))) := by
  rcases data with _ | d
  · simp [detect_mood]
  · rcases himg : d.image with _ | s
    · simp [detect_mood, himg]
    · rcases hdec : decode s with _ | img
      · simp [detect_mood, himg, hdec]
      · rcases hcl : classify img with _ | ⟨f, fs⟩
        · simp [detect_mood, himg, hdec, hcl, detect_emotion]
        · obtain ⟨dd, cc, hde, -, -⟩ :=
            detect_emotion_cons_spec f fs
              (hfaces img f (hcl ▸ List.mem_cons_self f fs))
          simp [detect_mood, himg, hdec, hcl, hde]

theorem C2_witness :
    ∃ e, (detect_mood (fun _ : String => (none : Option Nat)) (fun _ => [])
        none (fun _ => none) 0 none
        { mood_history := [], chat_history := [], suggestions := [] }).1 =
      HttpResult.badRequest e :=
  (C2_detect_error_iff _ _ _ _ _ _ _
    (fun _ f h => absurd h (List.not_mem_nil f))).mpr (Or.inl rfl)

theorem detect_mood_success_eq {Img : Type} (decode : String → Option Img)
    (classify : Img → List Face) (model : Option (String → GenResult))
    (parseJson : String → Option Suggestion) (now : Nat) (d : DetectBody)
    (db : DB) (s : String) (img : Img) (e : String) (c : ℚ)
    (himg : d.image = some s) (hdec : decode s = some img)
    (hdet : detect_emotion (classify img) = (some e, c)) :
    detect_mood decode classify model parseJson now (some d) db =
      (HttpResult.ok
        { emotion := e, confidence := pyRound2 c,
          message := (get_therapeutic_suggestion model parseJson e true).message,
          tip := (get_therapeutic_suggestion model parseJson e true).tip,
          activity :=
            (get_therapeutic_suggestion model parseJson e true).activity.getD "",
          sound :=
            (get_therapeutic_suggestion model parseJson e true).sound.getD "" },
       { mood_history := db.mood_history ++
           [{ emotion := e, confidence := c, timestamp := now,
              session_id := d.session_id.getD "default" }],
         chat_history := db.chat_history,
         suggestions := db.suggestions ++
           [{ emotion := e,
              message :=
                (get_therapeutic_suggestion model parseJson e true).message,
              tip := (get_therapeutic_suggestion model parseJson e true).tip,
              activity :=
                (get_therapeutic_suggestion model parseJson e true).activity.getD "",
              sound :=
                (get_therapeutic_suggestion model parseJson e true).sound.getD "",
              timestamp := now }] }) := by
  simp [detect_mood, himg, hdec, hdet]

/-- C5 counterexample: with the Gemini call succeeding but its reply not
parseable as JSON, `get_therapeutic_suggestion` (as called by `/detect`,
`use_gemini = True`) does not return the fallback-table entry keyed by the
detected emotion: it returns the fixed generic dict of the inner `except`
instead, so the claim fails at emotion `happy`. -/
theorem C5_counterexample :
    get_therapeutic_suggestion (some (fun _ => GenResult.ok "not valid json"))
        noParse "happy" true ≠ fallback_lookup "happy" := by
  decide

/-- C5 (amended): in a detection call, when the LLM is unconfigured or its
call fails, the suggestion returned is the fallback-table entry keyed by the
detected emotion; when the call succeeds but its output is unparseable as
JSON, the suggestion returned is the fixed generic dict instead; in every
successful detection the persisted suggestion row carries exactly the fields
of the suggestion so computed. -/
theorem C5_fallback_cases (model : Option (String → GenResult))
    (parseJson : String → Option Suggestion) (emotion : String) :
    (get_therapeutic_suggestion none parseJson emotion true =
      fallback_lookup emotion) ∧
    (∀ generate, generate emotion = GenResult.err →
      get_therapeutic_suggestion (some generate) parseJson emotion true =
        fallback_lookup emotion) ∧
    (∀ generate text, generate emotion = GenResult.ok text →
      parseJson text = none →
      get_therapeutic_suggestion (some generate) parseJson emotion true =
        json_fallback_suggestion) ∧
    (∀ {Img : Type} (decode : String → Option Img)
      (classify : Img → List Face) (now : Nat) (d : DetectBody) (db : DB)
      (s : String) (img : Img) (c : ℚ), d.image = some s →
      decode s = some img →
      detect_emotion (classify img) = (some emotion, c) →
      (detect_mood decode classify model parseJson now (some d) db).2.suggestions
        = db.suggestions ++
          [{ emotion := emotion,
             message :=
               (get_therapeutic_suggestion model parseJson emotion true).message,
             tip := (get_therapeutic_suggestion model parseJson emotion true).tip,
             activity :=
               (get_therapeutic_suggestion model parseJson emotion
                 true).activity.getD "",
             sound :=
               (get_therapeutic_suggestion model parseJson emotion
                 true).sound.getD "",
             timestamp := now }]) := by
  refine ⟨by simp [get_therapeutic_suggestion], ?_, ?_, ?_⟩
  · intro generate hg
    simp [get_therapeutic_suggestion, hg]
  · intro generate text hg hp
    simp [get_therapeutic_suggestion, hg, hp]
  · intro Img decode classify now d db s img c himg hdec hdet
    rw [detect_mood_success_eq decode classify model parseJson now d db s img
      emotion c himg hdec hdet]

theorem C5_witness :
    (get_therapeutic_suggestion none noParse "sad" true =
      fallback_lookup "sad") ∧
    (get_therapeutic_suggestion (some errGen) noParse "sad" true =
      fallback_lookup "sad") ∧
    (get_therapeutic_suggestion (some (fun _ => GenResult.ok "oops")) noParse
      "sad" true = json_fallback_suggestion) ∧
    (detect_mood (fun _ : String => some (0 : Nat)) (fun _ => [sadFace])
        (some errGen) noParse 7
        (some { image := some "x", session_id := none }) emptyDB).2.suggestions
      = emptyDB.suggestions ++
        [{ emotion := "sad",
           message :=
             (get_therapeutic_suggestion (some errGen) noParse "sad"
               true).message,
           tip := (get_therapeutic_suggestion (some errGen) noParse "sad"
               true).tip,
           activity :=
             (get_therapeutic_suggestion (some errGen) noParse "sad"
               true).activity.getD "",
           sound :=
             (get_therapeutic_suggestion (some errGen) noParse "sad"
               true).sound.getD "",
           timestamp := 7 }] :=
  ⟨(C5_fallback_cases (some errGen) noParse "sad").1,
   (C5_fallback_cases (some errGen) noParse "sad").2.1 errGen rfl,
   (C5_fallback_cases (some (fun _ => GenResult.ok "oops")) noParse
     "sad").2.2.1 (fun _ => GenResult.ok "oops") "oops" rfl rfl,
   (C5_fallback_cases (some errGen) noParse "sad").2.2.2
     (fun _ : String => some (0 : Nat)) (fun _ => [sadFace]) 7
     { image := some "x", session_id := none } emptyDB "x" 0 1 rfl rfl
     (by decide)⟩

/-- C6 counterexample: when the configured LLM answers with empty text, the
`/chat` handler returns a success payload whose `response` string is empty,
so the claim that every `/chat` call with a `message` key yields a non-empty
response fails. -/
theorem C6_counterexample :
    ∃ resp,
      (chat (some (fun _ _ _ => GenResult.ok "")) 0 "2025-01-01T00:00:00"
          (some helloBody) emptyDB).1 = HttpResult.ok resp ∧
        resp.response = "" :=
  ⟨{ response := "", timestamp := "2025-01-01T00:00:00" }, by decide, rfl⟩

/-- C6 (amended): for every chat request whose body contains a `message`
key, the handler returns a success payload whose timestamp is the current
`datetime.now().isoformat()` string and whose response is
`get_chat_response`. That response is a fixed non-empty canned sentence when
the LLM is unconfigured, and another fixed non-empty canned sentence when the
LLM call fails; when the call succeeds, the response is the stripped LLM
output, which is non-empty only when that output contains a non-whitespace
character. -/
theorem C6_chat_response_cases
    (model : Option (String → Option String → List HistMsg → GenResult))
    (now : Nat) (nowIso : String) (d : ChatBody) (db : DB) (msg : String)
    (hmsg : d.message = some msg) :
    ∃ resp db', chat model now nowIso (some d) db =
        (HttpResult.ok resp, db') ∧
      resp.timestamp = nowIso ∧
      resp.response = get_chat_response model msg d.mood
        (d.chat_history.getD []) ∧
      (model = none → resp.response ≠ "") ∧
      (∀ generate, model = some generate →
        (generate msg d.mood ((d.chat_history.getD []).drop
            ((d.chat_history.getD []).length - 5)) = GenResult.err →
          resp.response ≠ "") ∧
        (∀ t, generate msg d.mood ((d.chat_history.getD []).drop
            ((d.chat_history.getD []).length - 5)) = GenResult.ok t →
          resp.response = pyStrip t)) := by
  simp only [chat, hmsg]
  refine ⟨_, _, rfl, rfl, rfl, ?_, ?_⟩
  · intro h
    subst h
    simp [get_chat_response]
  · intro generate hg
    subst hg
    constructor
    · intro herr
      simp [get_chat_response, herr]
    · intro t ht
      simp [get_chat_response, ht]

theorem C6_witness :
    ∃ resp db', chat none 4 "2025-01-01T00:00:00" (some helloBody) emptyDB =
        (HttpResult.ok resp, db') ∧
      resp.timestamp = "2025-01-01T00:00:00" ∧ resp.response ≠ "" := by
  obtain ⟨resp, db', h1, h2, -, h4, -⟩ :=
    C6_chat_response_cases none 4 "2025-01-01T00:00:00" helloBody emptyDB
      "hello" rfl
  exact ⟨resp, db', h1, h2, h4 rfl⟩

theorem sqlLimit_subset {α : Type} (n : Int) (l : List α) :
    ∀ x ∈ sqlLimit n l, x ∈ l := by
  intro x hx
  unfold sqlLimit at hx
  split at hx
  · exact hx
  · exact List.take_subset _ _ hx

theorem sqlLimit_pairwise {α : Type} {R : α → α → Prop} (n : Int)
    {l : List α} (h : l.Pairwise R) : (sqlLimit n l).Pairwise R := by
  unfold sqlLimit
  split
  · exact h
  · exact List.Pairwise.sublist (List.take_sublist _ _) h

theorem sqlLimit_length_le {α : Type} {n : Int} (hn : 0 ≤ n) (l : List α) :
    ((sqlLimit n l).length : ℤ) ≤ n := by
  unfold sqlLimit
  rw [if_neg (not_lt.mpr hn)]
  calc ((l.take n.toNat).length : ℤ)
      ≤ (n.toNat : ℤ) := by
        exact_mod_cast List.length_take_le _ _
    _ = n := Int.toNat_of_nonneg hn

/-- C3 counterexample: SQLite treats a negative `LIMIT` as unbounded, so with
a caller-supplied limit of -1 the mood-history endpoint returns one entry
from a one-row table, which is not "at most limit" entries. -/
theorem C3_counterexample :
    (get_mood_history oneMoodDB none (some (-1))).length = 1 ∧
      ¬ ((1 : ℤ) ≤ -1) := by decide

/-- C3 (amended): each history endpoint returns only rows whose session
identifier equals the query's (defaulting to the fixed literal), ordered by
timestamp (descending for mood, ascending for chat); whenever the effective
limit (the caller's value, defaulting to 50 for mood and 100 for chat when
absent) is nonnegative, the result holds at most that many entries — a
negative caller-supplied limit imposes no bound. -/
theorem C3_history_queries (db : DB) (sid : Option String)
    (lim : Option Int) :
    (∀ e ∈ get_mood_history db sid lim, ∃ r ∈ db.mood_history,
      r.session_id = sid.getD "default" ∧ e.emotion = r.emotion ∧
      e.confidence = r.confidence ∧ e.timestamp = r.timestamp) ∧
    (get_mood_history db sid lim).Pairwise
      (fun a b => b.timestamp ≤ a.timestamp) ∧
    (0 ≤ lim.getD 50 →
      ((get_mood_history db sid lim).length : ℤ) ≤ lim.getD 50) ∧
    (∀ e ∈ get_chat_history db sid lim, ∃ r ∈ db.chat_history,
      r.session_id = sid.getD "default" ∧ e.message = r.message ∧
      e.sender = r.sender ∧ e.mood = r.mood ∧ e.timestamp = r.timestamp) ∧
    (get_chat_history db sid lim).Pairwise
      (fun a b => a.timestamp ≤ b.timestamp) ∧
    (0 ≤ lim.getD 100 →
      ((get_chat_history db sid lim).length : ℤ) ≤ lim.getD 100) := by
  have hmoodSorted : (List.insertionSort
      (fun a b : MoodRow => b.timestamp ≤ a.timestamp)
      (db.mood_history.filter
        (fun r => r.session_id == sid.getD "default"))).Pairwise
      (fun a b : MoodRow => b.timestamp ≤ a.timestamp) := by
    haveI : IsTotal MoodRow (fun a b => b.timestamp ≤ a.timestamp) :=
      ⟨fun a b => Nat.le_total b.timestamp a.timestamp⟩
    haveI : IsTrans MoodRow (fun a b => b.timestamp ≤ a.timestamp) :=
      ⟨fun _ _ _ h1 h2 => le_trans h2 h1⟩
    exact List.sorted_insertionSort _ _
  have hchatSorted : (List.insertionSort
      (fun a b : ChatRow => a.timestamp ≤ b.timestamp)
      (db.chat_history.filter
        (fun r => r.session_id == sid.getD "default"))).Pairwise
      (fun a b : ChatRow => a.timestamp ≤ b.timestamp) := by
    haveI : IsTotal ChatRow (fun a b => a.timestamp ≤ b.timestamp) :=
      ⟨fun a b => Nat.le_total a.timestamp b.timestamp⟩
    haveI : IsTrans ChatRow (fun a b => a.timestamp ≤ b.timestamp) :=
      ⟨fun _ _ _ h1 h2 => le_trans h1 h2⟩
    exact List.sorted_insertionSort _ _
  refine ⟨?_, ?_, ?_, ?_, ?_, ?_⟩
  · intro e he
    simp only [get_mood_history, List.mem_map] at he
    obtain ⟨r, hr, rfl⟩ := he
    have hr2 := sqlLimit_subset _ _ r hr
    rw [List.mem_insertionSort] at hr2
    rw [List.mem_filter] at hr2
    exact ⟨r, hr2.1, by simpa using hr2.2, rfl, rfl, rfl⟩
  · simp only [get_mood_history]
    rw [List.pairwise_map]
    exact sqlLimit_pairwise _ hmoodSorted
  · intro hn
    simp only [get_mood_history, List.length_map]
    exact sqlLimit_length_le hn _
  · intro e he
    simp only [get_chat_history, List.mem_map] at he
    obtain ⟨r, hr, rfl⟩ := he
    have hr2 := sqlLimit_subset _ _ r hr
    rw [List.mem_insertionSort] at hr2
    rw [List.mem_filter] at hr2
    exact ⟨r, hr2.1, by simpa using hr2.2, rfl, rfl, rfl, rfl⟩
  · simp only [get_chat_history]
    rw [List.pairwise_map]
    exact sqlLimit_pairwise _ hchatSorted
  · intro hn
    simp only [get_chat_history, List.length_map]
    exact sqlLimit_length_le hn _

theorem C3_witness :
    ((get_mood_history oneMoodDB none none).length : ℤ) ≤ 50 ∧
    ((get_chat_history oneMoodDB none none).length : ℤ) ≤ 100 :=
  ⟨(C3_history_queries oneMoodDB none none).2.2.1 (by decide),
   (C3_history_queries oneMoodDB none none).2.2.2.2.2 (by decide)⟩

/-- C7: the two writing handlers only append rows: for every request and
database state, each of the three tables before the call is a prefix of the
same table after the call, so every existing row is unchanged and still
present (the two history endpoints and `/health` never write at all). -/
theorem C7_append_only {Img : Type} (decode : String → Option Img)
    (classify : Img → List Face) (model : Option (String → GenResult))
    (parseJson : String → Option Suggestion)
    (chatModel : Option (String → Option String → List HistMsg → GenResult))
    (now : Nat) (nowIso : String) (data : Option DetectBody)
    (cdata : Option ChatBody) (db : DB) :
    (db.mood_history <+:
        ((detect_mood decode classify model parseJson now data db).2).mood_history ∧
     db.chat_history <+:
        ((detect_mood decode classify model parseJson now data db).2).chat_history ∧
     db.suggestions <+:
        ((detect_mood decode classify model parseJson now data db).2).suggestions) ∧
    (db.mood_history <+: ((chat chatModel now nowIso cdata db).2).mood_history ∧
     db.chat_history <+: ((chat chatModel now nowIso cdata db).2).chat_history ∧
     db.suggestions <+: ((chat chatModel now nowIso cdata db).2).suggestions) := by
  constructor
  · rcases data with _ | d
    · simp [detect_mood, List.prefix_rfl]
    · rcases himg : d.image with _ | s
      · simp [detect_mood, himg, List.prefix_rfl]
      · rcases hdec : decode s with _ | img
        · simp [detect_mood, himg, hdec, List.prefix_rfl]
        · rcases hde : detect_emotion (classify img) with ⟨eo, c⟩
          rcases eo with _ | e
          · simp [detect_mood, himg, hdec, hde, List.prefix_rfl]
          · simp [detect_mood, himg, hdec, hde, List.prefix_rfl,
              List.prefix_append]
  · rcases cdata with _ | d
    · simp [chat, List.prefix_rfl]
    · rcases hmsg : d.message with _ | m
      · simp [chat, hmsg, List.prefix_rfl]
      · simp [chat, hmsg, List.prefix_rfl, List.append_assoc,
          List.prefix_append]

/-- C8: in every successful detection, the response carries the classifier
confidence rounded to two decimal places while the inserted mood row keeps
the unrounded value, so whenever rounding changes the value the two differ;
reading the fresh session back through the mood-history query returns the
stored, unrounded confidence, which then differs from the one `/detect`
answered. -/
theorem C8_round_response_store_raw {Img : Type}
    (decode : String → Option Img) (classify : Img → List Face)
    (model : Option (String → GenResult))
    (parseJson : String → Option Suggestion) (now : Nat) (d : DetectBody)
    (db : DB) (s : String) (img : Img) (e : String) (c : ℚ)
    (himg : d.image = some s) (hdec : decode s = some img)
    (hdet : detect_emotion (classify img) = (some e, c)) :
    ∃ resp db', detect_mood decode classify model parseJson now (some d) db =
        (HttpResult.ok resp, db') ∧
      resp.confidence = pyRound2 c ∧
      db'.mood_history = db.mood_history ++
        [{ emotion := e, confidence := c, timestamp := now,
           session_id := d.session_id.getD "default" }] ∧
      (pyRound2 c ≠ c → resp.confidence ≠ c) ∧
      (db.mood_history = [] → pyRound2 c ≠ c →
        ∃ en, get_mood_history db' (some (d.session_id.getD "default")) none =
            [en] ∧ en.confidence = c ∧ en.confidence ≠ resp.confidence) := by
  rw [detect_mood_success_eq decode classify model parseJson now d db s img e
    c himg hdec hdet]
  refine ⟨_, _, rfl, rfl, rfl, fun h => h, ?_⟩
  intro hemp hne
  refine ⟨{ emotion := e, confidence := c, timestamp := now }, ?_, rfl,
    fun h => hne h.symm⟩
  simp [get_mood_history, hemp, sqlLimit, List.insertionSort]

theorem pyRound2_one_third : pyRound2 (1/3) = 33/100 := by
  have h1 : ((1 : ℚ)/3) * 100 = 100/3 := by norm_num
  have hf : ⌊(100 : ℚ)/3⌋ = 33 := by
    rw [Int.floor_eq_iff]
    constructor
    · norm_num
    · norm_num
  unfold pyRound2 roundHalfEven
  simp only [h1, hf]
  norm_num

theorem pyRound2_changes_one_third : pyRound2 (1/3) ≠ (1/3 : ℚ) := by
  rw [pyRound2_one_third]
  norm_num

theorem C8_witness :
    ∃ resp db', detect_mood (fun _ : String => some (0 : Nat))
        (fun _ => [{ emotions := [("happy", 1/3)] }]) none noParse 5
        (some { image := some "x", session_id := none }) emptyDB =
        (HttpResult.ok resp, db') ∧
      resp.confidence = pyRound2 (1/3) ∧ resp.confidence ≠ (1/3 : ℚ) ∧
      ∃ en, get_mood_history db' (some "default") none = [en] ∧
        en.confidence = (1/3 : ℚ) ∧ en.confidence ≠ resp.confidence := by
  obtain ⟨resp, db', h1, h2, h3, h4, h5⟩ :=
    C8_round_response_store_raw (fun _ : String => some (0 : Nat))
      (fun _ => [{ emotions := [("happy", 1/3)] }]) none noParse 5
      { image := some "x", session_id := none } emptyDB "x" 0 "happy" (1/3)
      rfl rfl rfl
  obtain ⟨en, he1, he2, he3⟩ := h5 rfl pyRound2_changes_one_third
  exact ⟨resp, db', h1, h2, h4 pyRound2_changes_one_third, en, he1, he2, he3⟩

/-- C9: in every successful chat call, the two rows appended to
`chat_history` are the user turn followed by the therapist turn; the
therapist row's message is exactly the response returned to the caller, and
both rows carry the same session identifier and the same caller-supplied
mood. -/
theorem C9_chat_rows
    (model : Option (String → Option String → List HistMsg → GenResult))
    (now : Nat) (nowIso : String) (d : ChatBody) (db : DB) (msg : String)
    (hmsg : d.message = some msg) :
    ∃ resp db', chat model now nowIso (some d) db =
        (HttpResult.ok resp, db') ∧
      db'.chat_history = db.chat_history ++
        [{ message := msg, sender := "user", mood := d.mood,
           timestamp := now, session_id := d.session_id.getD "default" },
         { message := resp.response, sender := "therapist", mood := d.mood,
           timestamp := now, session_id := d.session_id.getD "default" }] := by
  simp only [chat, hmsg]
  exact ⟨_, _, rfl, by simp⟩

theorem C9_witness :
    ∃ resp db', chat none 9 "2025-01-01T00:00:00" (some helloBody) emptyDB =
        (HttpResult.ok resp, db') ∧
      db'.chat_history =
        [{ message := "hello", sender := "user", mood := none,
           timestamp := 9, session_id := "default" },
         { message := resp.response, sender := "therapist", mood := none,
           timestamp := 9, session_id := "default" }] := by
  obtain ⟨resp, db', h1, h2⟩ :=
    C9_chat_rows none 9 "2025-01-01T00:00:00" helloBody emptyDB "hello" rfl
  exact ⟨resp, db', h1, h2⟩
